import Mathlib

/-!
# Verification of `gerador_dados.py` (dataframe-generator)

Shallow embedding of the synthetic-data generator: the registry generator
`gerar_dados_cadastrais`, the order generator `gerar_dados_vendas`, and the
pipeline `processar_dados`.  Randomness and the faker library are modelled as
oracles: a structure of functions indexed by the iteration number, with the
documented contracts of the external libraries (`random.uniform` stays in its
interval, `fake.unique.cpf` never repeats, `random._randbelow n < n`) taken as
hypotheses.  Monetary values are rationals; Python's `round(x, 2)` is modelled
by `round2`.  Exceptions are modelled with `Except`; the two distinct
`except` clauses of `gerar_dados_vendas` are rendered by the constructors of
`VendasError` (with the dedicated `KeyError` clause covering both the
pre-loop `set_index` failure and an in-loop dictionary miss).
-/

/-- Rounding to two decimal places, as Python's `round(x, 2)` on the values
produced here: multiply by 100, round to the nearest integer, divide by 100. -/
def round2 (q : ℚ) : ℚ := (round (q * 100) : ℚ) / 100

/-- One registry record (one row of the `cadastros` dataframe), with the
column names of the source. -/
structure Registro where
  id : String
  nome : String
  cpf : String
  data_nascimento : String
  email : String
  telefone : String
  rua : String
  numero : String
  bairro : String
  cidade : String
  estado : String
  pais : String
  cep : String
  genero : String
  profissao : String
  data_cadastro : String
deriving Repr, DecidableEq

/-- Oracle for one run of `gerar_dados_cadastrais`: the values returned by the
faker / random calls at each iteration.  `excecao i = some msg` models an
arbitrary exception raised by one of the library calls of iteration `i`
(caught by the function's generic `except Exception` clause). -/
structure CadOracle where
  excecao : ℕ → Option String
  uuid4 : ℕ → String
  generoM : ℕ → Bool
  nomeMasculino : ℕ → String
  nomeFeminino : ℕ → String
  cpf : ℕ → String
  dataNascimento : ℕ → String
  email : ℕ → String
  telefone : ℕ → String
  rua : ℕ → String
  numero : ℕ → ℕ
  bairro : ℕ → String
  cidade : ℕ → String
  estado : ℕ → String
  cep : ℕ → String
  profissao : ℕ → String
  dataCadastro : ℕ → String

/-- The dictionary appended at iteration `i` of `gerar_dados_cadastrais`. -/
def mkRegistro (o : CadOracle) (i : ℕ) : Registro :=
  { id := o.uuid4 i
  , nome := if o.generoM i then o.nomeMasculino i else o.nomeFeminino i
  , cpf := o.cpf i
  , data_nascimento := o.dataNascimento i
  , email := o.email i
  , telefone := o.telefone i
  , rua := o.rua i
  , numero := toString (o.numero i)
  , bairro := o.bairro i
  , cidade := o.cidade i
  , estado := o.estado i
  , pais := "Brasil"
  , cep := o.cep i
  , genero := if o.generoM i then "M" else "F"
  , profissao := o.profissao i
  , data_cadastro := o.dataCadastro i }

/-- The loop of `gerar_dados_cadastrais` over the iteration indices: an
exception at any iteration aborts the whole call (no partial result),
wrapped with the stage message of the source's `except` clause. -/
def gerarCadAux (o : CadOracle) : List ℕ → Except String (List Registro)
  | [] => .ok []
  | i :: rest =>
    match o.excecao i with
    | some msg => .error ("Erro ao gerar dados de cadastro: " ++ msg)
    | none =>
      match gerarCadAux o rest with
      | .ok rs => .ok (mkRegistro o i :: rs)
      | .error e => .error e

/-- The function `gerar_dados_cadastrais(n_linhas)`: `n_linhas` iterations, each appending
one registry record. -/
def gerar_dados_cadastrais (o : CadOracle) (n_linhas : ℕ) :
    Except String (List Registro) :=
  gerarCadAux o (List.range n_linhas)

/-- The failure kinds of `gerar_dados_vendas`.  The dedicated
`except KeyError` clause catches two `KeyError` sources: a cpf missing from
the address dictionaries inside the loop (`mapeamento`, carrying the missing
key) and `set_index('cpf')` on a column-less dataframe before the loop
(`semColuna` — `pd.DataFrame([])` built from an empty record list has no
columns).  The generic `except Exception` clause is `geracao`. -/
inductive VendasError where
  | mapeamento (chave : String)
  | semColuna
  | geracao (msg : String)
deriving Repr, DecidableEq

/-- The `RuntimeError` message each failure kind produces in the source:
`str` of a `KeyError` is the `repr` of its argument, so a missing dict key
comes out single-quoted and pandas' set_index message (which itself contains
single quotes) comes out double-quoted. -/
def VendasError.mensagem : VendasError → String
  | .mapeamento chave => "Erro ao mapear CPF para endereço: " ++ ("'" ++ chave ++ "'")
  | .semColuna =>
    "Erro ao mapear CPF para endereço: " ++ "\"None of ['cpf'] are in the columns\""
  | .geracao msg => "Erro ao gerar dados de vendas: " ++ msg

/-- One order record (one row of the `pedidos` dataframe). -/
structure Pedido where
  id_pedido : String
  cpf : String
  valor_pedido : ℚ
  valor_frete : ℚ
  valor_desconto : ℚ
  cupom : Option String
  forma_pagamento : String
  endereco_entrega : String
  cidade_entrega : String
  estado_entrega : String
  pais_entrega : String
  status_pedido : String
  data_pedido : String
deriving Repr, DecidableEq, Inhabited

/-- Oracle for one run of `gerar_dados_vendas`.  `escolhaCpf i` is the raw
output of `random._randbelow` at iteration `i` (reduced mod the population
size, which models its contract of returning an index below the length);
the `Bruto` fields are the raw `random.uniform` outputs before rounding;
`descontoZero` is the two-way `random.choice` between the zero and nonzero
discount branches; `falha i = some msg` models an exception raised by a
library call of iteration `i` (caught by the generic clause). -/
structure VendasOracle where
  falha : ℕ → Option String
  uuid4 : ℕ → String
  escolhaCpf : ℕ → ℕ
  valorPedidoBruto : ℕ → ℚ
  valorFreteBruto : ℕ → ℚ
  descontoZero : ℕ → Bool
  valorDescontoBruto : ℕ → ℚ
  palavraCupom : ℕ → String
  escolhaStatus : ℕ → ℕ
  escolhaPagamento : ℕ → ℕ
  dataPedido : ℕ → String

/-- Contract of `random.uniform(a, b)`: the raw draws lie in their intervals. -/
def VendasOracle.Valido (o : VendasOracle) : Prop :=
  ∀ i, (30 ≤ o.valorPedidoBruto i ∧ o.valorPedidoBruto i ≤ 5000) ∧
    (10 ≤ o.valorFreteBruto i ∧ o.valorFreteBruto i ≤ 150) ∧
    (10 ≤ o.valorDescontoBruto i ∧ o.valorDescontoBruto i ≤ 20)

/-- The option lists of the two `random.choices` calls. -/
def statusOpcoes : List String :=
  ["Entregue", "Aguardando envio", "Aguardando pagamento", "Cancelado"]

def pagamentoOpcoes : List String :=
  ["Cartão de crédito", "Boleto", "Cartão de débito", "Pix"]

/-- The address dictionaries `rua_map` … `estado_map` are all built by
`cadastros_df.set_index('cpf')[col].to_dict()` over the same rows: looking a
cpf up in any of them resolves to the same row, the **last** row bearing that
cpf (later rows overwrite earlier ones when a dict is built from a duplicated
index).  `lookupCpf` returns that row. -/
def lookupCpf (cads : List Registro) (c : String) : Option Registro :=
  cads.reverse.find? (fun r => r.cpf == c)

/-- The straight-line body of one iteration of `gerar_dados_vendas` after the
customer cpf has been chosen: draw the monetary values, the coupon, the
status and payment method, then resolve the five address dictionaries at
`cpf_cliente` (a missing key raises `KeyError`, caught as the distinct
mapping failure). -/
def montarPedido (o : VendasOracle) (cads : List Registro) (i : ℕ)
    (cpf_cliente : String) : Except VendasError Pedido :=
  let valor_pedido := round2 (o.valorPedidoBruto i)
  let valor_frete := round2 (o.valorFreteBruto i)
  let valor_desconto := if o.descontoZero i then 0 else round2 (o.valorDescontoBruto i)
  let cupom := if 0 < valor_desconto then some (o.palavraCupom i) else none
  let status_pedido := statusOpcoes.get ⟨o.escolhaStatus i % 4, Nat.mod_lt _ (by simp)⟩
  let forma_pagamento := pagamentoOpcoes.get ⟨o.escolhaPagamento i % 4, Nat.mod_lt _ (by simp)⟩
  match lookupCpf cads cpf_cliente with
  | none => .error (.mapeamento cpf_cliente)
  | some r =>
    .ok { id_pedido := o.uuid4 i
        , cpf := cpf_cliente
        , valor_pedido := valor_pedido
        , valor_frete := valor_frete
        , valor_desconto := valor_desconto
        , cupom := cupom
        , forma_pagamento := forma_pagamento
        , endereco_entrega := r.rua ++ ", " ++ r.numero ++ ", " ++ r.bairro
        , cidade_entrega := r.cidade
        , estado_entrega := r.estado
        , pais_entrega := "Brasil"
        , status_pedido := status_pedido
        , data_pedido := o.dataPedido i }

/-- One iteration of the loop of `gerar_dados_vendas`.
`random.choice(cadastros_df['cpf'])` raises `IndexError` on an empty
population (caught by the generic clause); otherwise it returns the entry at
index `_randbelow(len) < len`.  The empty branch models `random.choice`'s
own contract; through `gerar_dados_vendas` it is unreachable, because a
column-less empty registry frame already fails at the pre-loop
`set_index('cpf')` step. -/
def vendaIter (o : VendasOracle) (cads : List Registro) (i : ℕ) :
    Except VendasError Pedido :=
  let cpfs := cads.map Registro.cpf
  if h : cpfs.length = 0 then
    .error (.geracao "Cannot choose from an empty sequence")
  else
    match o.falha i with
    | some msg => .error (.geracao msg)
    | none =>
      montarPedido o cads i
        (cpfs.get ⟨o.escolhaCpf i % cpfs.length, Nat.mod_lt _ (Nat.pos_of_ne_zero h)⟩)

/-- The loop of `gerar_dados_vendas`: any failure aborts the whole call. -/
def gerarVendasAux (o : VendasOracle) (cads : List Registro) :
    List ℕ → Except VendasError (List Pedido)
  | [] => .ok []
  | i :: rest =>
    match vendaIter o cads i with
    | .error e => .error e
    | .ok p =>
      match gerarVendasAux o cads rest with
      | .ok ps => .ok (p :: ps)
      | .error e => .error e

/-- The function `gerar_dados_vendas(cadastros_df, n_pedidos)`: first the
five pre-loop dictionary builds `cadastros_df.set_index('cpf')[col].to_dict()`,
then the loop.  A registry frame built from an empty record list
(`pd.DataFrame([])`) has no columns, so the very first `set_index('cpf')`
raises `KeyError("None of ['cpf'] are in the columns")`, caught by the
dedicated `except KeyError` clause before any order is generated; a
non-empty record list yields the full column schema and the builds
succeed. -/
def gerar_dados_vendas (o : VendasOracle) (cads : List Registro) (n_pedidos : ℕ) :
    Except VendasError (List Pedido) :=
  if cads = [] then .error .semColuna
  else gerarVendasAux o cads (List.range n_pedidos)

/-- Pandas' `df.set_index('cpf')[col].to_dict()`: returns the freshly built
dictionary, leaving the input dataframe unchanged (`set_index` is not
in-place).  The pair is (result, dataframe after the operation). -/
def dfParaDict (df : List Registro) (campo : Registro → String) :
    (String → Option String) × List Registro :=
  (fun c => (lookupCpf df c).map campo, df)

/-- The function `gerar_dados_vendas` with the dataframe's state threaded explicitly
through every pandas operation the source performs on `cadastros_df`
(the five dictionary builds — which fail on a column-less empty frame,
leaving it untouched — then the loop reading the cpf column):
the pair is (result, the registry dataframe after the call). -/
def gerar_dados_vendas_estado (o : VendasOracle) (cads : List Registro)
    (n_pedidos : ℕ) : Except VendasError (List Pedido) × List Registro :=
  if cads = [] then (.error .semColuna, cads)
  else
    let df1 := (dfParaDict cads Registro.rua).2
    let df2 := (dfParaDict df1 Registro.numero).2
    let df3 := (dfParaDict df2 Registro.bairro).2
    let df4 := (dfParaDict df3 Registro.cidade).2
    let df5 := (dfParaDict df4 Registro.estado).2
    (gerarVendasAux o df5 (List.range n_pedidos), df5)

/-- Filesystem effects performed by `processar_dados`. -/
inductive FSOp where
  | mkdir (caminho : String)
  | escreverParquet (caminho : String)
deriving Repr, DecidableEq

/-- The function `os.path.join` for the shapes used here: appends with a separator unless
the left part already ends with one (or the right part is absolute). -/
def osPathJoin (a b : String) : String :=
  if b.startsWith "/" then b
  else if a = "" ∨ a.endsWith "/" then a ++ b
  else a ++ "/" ++ b

/-- The function `processar_dados(n_linhas_cadastros, n_pedidos, caminho_base)`: create the
two output directories, generate both dataframes, then write both parquet
files.  Result: the list of filesystem effects performed, and the wrapped
error message when a stage failed (`None` on success). -/
def processar_dados (oc : CadOracle) (ov : VendasOracle)
    (n_linhas_cadastros n_pedidos : ℕ) (caminho_base : String) :
    List FSOp × Option String :=
  let caminho_cadastros := osPathJoin caminho_base "cadastros/"
  let caminho_pedidos := osPathJoin caminho_base "pedidos/"
  let dirs := [FSOp.mkdir caminho_cadastros, FSOp.mkdir caminho_pedidos]
  match gerar_dados_cadastrais oc n_linhas_cadastros with
  | .error e => (dirs, some ("Erro durante o processamento dos dados: " ++ e))
  | .ok cadastros_df =>
    match gerar_dados_vendas ov cadastros_df n_pedidos with
    | .error e =>
      (dirs, some ("Erro durante o processamento dos dados: " ++ e.mensagem))
    | .ok _ =>
      (dirs ++ [FSOp.escreverParquet (osPathJoin caminho_cadastros "cadastros.parquet"),
                FSOp.escreverParquet (osPathJoin caminho_pedidos "pedidos.parquet")],
       none)

/-- A concrete registry oracle (for witnesses): no exceptions, cpfs distinct
by construction. -/
def oc0 : CadOracle :=
  { excecao := fun _ => none
  , uuid4 := fun i => "uuid-" ++ toString i
  , generoM := fun i => i % 2 == 0
  , nomeMasculino := fun i => "João " ++ toString i
  , nomeFeminino := fun i => "Maria " ++ toString i
  , cpf := fun i => String.mk (List.replicate i 'c')
  , dataNascimento := fun _ => "1990-01-01"
  , email := fun i => "e" ++ toString i ++ "@x.br"
  , telefone := fun _ => "11 99999-0000"
  , rua := fun i => "Rua " ++ toString i
  , numero := fun i => i + 1
  , bairro := fun i => "Bairro " ++ toString i
  , cidade := fun i => "Cidade " ++ toString i
  , estado := fun i => "Estado " ++ toString i
  , cep := fun _ => "01000-000"
  , profissao := fun _ => "Analista"
  , dataCadastro := fun _ => "2025-06-01" }

/-- A concrete order oracle (for witnesses): no failures, draws inside the
documented intervals. -/
def ov0 : VendasOracle :=
  { falha := fun _ => none
  , uuid4 := fun i => "pedido-" ++ toString i
  , escolhaCpf := fun i => i
  , valorPedidoBruto := fun _ => 100
  , valorFreteBruto := fun _ => 20
  , descontoZero := fun i => i % 2 == 0
  , valorDescontoBruto := fun _ => 15
  , palavraCupom := fun _ => "promo"
  , escolhaStatus := fun i => i
  , escolhaPagamento := fun i => i
  , dataPedido := fun _ => "2025-07-01" }

/-- The registry record of iteration 0 of the concrete oracle. -/
def reg0 : Registro := mkRegistro oc0 0

/-- A concrete one-row registry set. -/
def cads1 : List Registro := [reg0]

/-- The first order produced by the concrete oracles over `cads1`. -/
def ped1 : Pedido := ((gerar_dados_vendas ov0 cads1 1).toOption.getD []).headD default

/-! ## Helper lemmas -/

theorem le_round2 (a : ℤ) (u : ℚ) (h : (a : ℚ) ≤ u) : (a : ℚ) ≤ round2 u := by
  unfold round2
  have h1 : ((a * 100 : ℤ) : ℚ) ≤ u * 100 + 1/2 := by push_cast; linarith
  have h2 : (a * 100 : ℤ) ≤ round (u * 100) := by
    rw [round_eq]
    calc (a * 100 : ℤ) = ⌊((a * 100 : ℤ) : ℚ)⌋ := (Int.floor_intCast _).symm
    _ ≤ ⌊u * 100 + 1/2⌋ := Int.floor_le_floor h1
  have h3 : ((a * 100 : ℤ) : ℚ) ≤ (round (u * 100) : ℚ) := by exact_mod_cast h2
  have h4 : ((a * 100 : ℤ) : ℚ) / 100 ≤ (round (u * 100) : ℚ) / 100 := by gcongr
  calc (a : ℚ) = ((a * 100 : ℤ) : ℚ) / 100 := by push_cast; ring
  _ ≤ _ := h4

theorem round2_le (b : ℤ) (u : ℚ) (h : u ≤ (b : ℚ)) : round2 u ≤ (b : ℚ) := by
  unfold round2
  have h2 : round (u * 100) ≤ (b * 100 : ℤ) := by
    rw [round_eq]
    calc ⌊u * 100 + 1/2⌋ ≤ ⌊((b * 100 : ℤ) : ℚ) + 1/2⌋ := by
          apply Int.floor_le_floor; push_cast; linarith
    _ = b * 100 + ⌊(1/2 : ℚ)⌋ := Int.floor_int_add _ _
    _ = b * 100 := by norm_num [Int.floor_eq_zero_iff, Set.mem_Ico]
  have h3 : (round (u * 100) : ℚ) ≤ ((b * 100 : ℤ) : ℚ) := by exact_mod_cast h2
  calc (round (u * 100) : ℚ) / 100 ≤ ((b * 100 : ℤ) : ℚ) / 100 := by gcongr
  _ = (b : ℚ) := by push_cast; ring

theorem lookupCpf_some {cads : List Registro} {c : String} {r : Registro}
    (h : lookupCpf cads c = some r) : r ∈ cads ∧ r.cpf = c := by
  unfold lookupCpf at h
  refine ⟨List.mem_reverse.mp (List.mem_of_find?_eq_some h), ?_⟩
  simpa using List.find?_some h

theorem lookupCpf_isSome {cads : List Registro} {c : String}
    (h : c ∈ cads.map Registro.cpf) : ∃ r, lookupCpf cads c = some r := by
  rw [← Option.isSome_iff_exists]
  unfold lookupCpf
  rw [List.find?_isSome]
  obtain ⟨r, hr, hc⟩ := List.mem_map.mp h
  exact ⟨r, List.mem_reverse.mpr hr, by simpa using hc⟩

theorem montarPedido_ok {o : VendasOracle} {cads : List Registro} {i : ℕ}
    {c : String} {p : Pedido} (h : montarPedido o cads i c = .ok p) :
    p.cpf = c ∧ ∃ r, lookupCpf cads c = some r ∧
      p.cidade_entrega = r.cidade ∧ p.estado_entrega = r.estado ∧
      p.endereco_entrega = r.rua ++ ", " ++ r.numero ++ ", " ++ r.bairro ∧
      p.valor_pedido = round2 (o.valorPedidoBruto i) ∧
      p.valor_frete = round2 (o.valorFreteBruto i) ∧
      p.valor_desconto = (if o.descontoZero i then 0 else round2 (o.valorDescontoBruto i)) ∧
      p.cupom = (if 0 < p.valor_desconto then some (o.palavraCupom i) else none) := by
  simp only [montarPedido] at h
  cases hl : lookupCpf cads c with
  | none => rw [hl] at h; exact absurd h (by simp)
  | some r =>
    rw [hl] at h
    injection h with h
    subst h
    exact ⟨rfl, r, rfl, rfl, rfl, rfl, rfl, rfl, rfl, rfl⟩

theorem montarPedido_isOk {o : VendasOracle} {cads : List Registro} {i : ℕ}
    {c : String} (h : c ∈ cads.map Registro.cpf) :
    ∃ p, montarPedido o cads i c = .ok p := by
  obtain ⟨r, hr⟩ := lookupCpf_isSome h
  simp only [montarPedido, hr]
  exact ⟨_, rfl⟩

theorem vendaIter_ok {o : VendasOracle} {cads : List Registro} {i : ℕ}
    {p : Pedido} (h : vendaIter o cads i = .ok p) :
    p.cpf ∈ cads.map Registro.cpf ∧ montarPedido o cads i p.cpf = .ok p := by
  simp only [vendaIter] at h
  split at h
  · exact absurd h (by simp)
  · split at h
    · exact absurd h (by simp)
    · have hcpf := (montarPedido_ok h).1
      constructor
      · rw [hcpf]; exact List.get_mem _ _ _
      · rw [hcpf]; exact h

theorem vendaIter_isOk {o : VendasOracle} {cads : List Registro} {i : ℕ}
    (hne : cads ≠ []) (hf : o.falha i = none) :
    ∃ p, vendaIter o cads i = .ok p := by
  have hlen : (cads.map Registro.cpf).length ≠ 0 := by
    simpa using fun h => hne (List.eq_nil_of_length_eq_zero h)
  simp only [vendaIter, hf]
  rw [dif_neg hlen]
  exact montarPedido_isOk (List.get_mem _ _ _)

theorem gerar_dados_vendas_ok {o : VendasOracle} {cads : List Registro}
    {m : ℕ} {ps : List Pedido} (h : gerar_dados_vendas o cads m = .ok ps) :
    gerarVendasAux o cads (List.range m) = .ok ps := by
  unfold gerar_dados_vendas at h
  split at h
  · exact absurd h (by simp)
  · exact h

theorem gerarVendasAux_mem {o : VendasOracle} {cads : List Registro}
    {l : List ℕ} {ps : List Pedido} (h : gerarVendasAux o cads l = .ok ps)
    {p : Pedido} (hp : p ∈ ps) : ∃ i ∈ l, vendaIter o cads i = .ok p := by
  induction l generalizing ps with
  | nil =>
    simp only [gerarVendasAux] at h
    injection h with h
    subst h
    exact absurd hp (by simp)
  | cons i rest ih =>
    simp only [gerarVendasAux] at h
    cases hv : vendaIter o cads i with
    | error e => rw [hv] at h; exact absurd h (by simp)
    | ok q =>
      rw [hv] at h
      cases hr : gerarVendasAux o cads rest with
      | error e => rw [hr] at h; exact absurd h (by simp)
      | ok qs =>
        rw [hr] at h
        injection h with h
        subst h
        rcases List.mem_cons.mp hp with hpq | hpqs
        · exact ⟨i, by simp, hpq ▸ hv⟩
        · obtain ⟨j, hj, hvj⟩ := ih hr hpqs
          exact ⟨j, by simp [hj], hvj⟩

theorem gerarVendasAux_length {o : VendasOracle} {cads : List Registro}
    {l : List ℕ} (hne : cads ≠ []) (hf : ∀ i ∈ l, o.falha i = none) :
    ∃ ps, gerarVendasAux o cads l = .ok ps ∧ ps.length = l.length := by
  induction l with
  | nil => exact ⟨[], rfl, rfl⟩
  | cons i rest ih =>
    obtain ⟨p, hp⟩ := vendaIter_isOk hne (hf i (by simp))
    obtain ⟨ps, hps, hlen⟩ := ih (fun j hj => hf j (by simp [hj]))
    refine ⟨p :: ps, ?_, by simp [hlen]⟩
    simp only [gerarVendasAux, hp, hps]

theorem gerarCadAux_ok {o : CadOracle} {l : List ℕ} {rs : List Registro}
    (h : gerarCadAux o l = .ok rs) : rs = l.map (mkRegistro o) := by
  induction l generalizing rs with
  | nil =>
    simp only [gerarCadAux] at h
    injection h with h
    simp [← h]
  | cons i rest ih =>
    simp only [gerarCadAux] at h
    cases he : o.excecao i with
    | some msg => rw [he] at h; exact absurd h (by simp)
    | none =>
      rw [he] at h
      cases hr : gerarCadAux o rest with
      | error e => rw [hr] at h; exact absurd h (by simp)
      | ok qs =>
        rw [hr] at h
        injection h with h
        subst h
        simp [ih hr]

theorem gerarCadAux_isOk {o : CadOracle} {l : List ℕ}
    (hf : ∀ i ∈ l, o.excecao i = none) :
    gerarCadAux o l = .ok (l.map (mkRegistro o)) := by
  induction l with
  | nil => rfl
  | cons i rest ih =>
    simp only [gerarCadAux, hf i (by simp),
      ih (fun j hj => hf j (by simp [hj]))]
    rfl

theorem string_data_append (s t : String) : (s ++ t).data = s.data ++ t.data := rfl

/-! ## Claims -/

/-- C1: every order record produced by `gerar_dados_vendas` carries a `cpf`
(customer_national_id) that occurs among the registry set's `cpf` values —
no dangling references. -/
theorem vendas_sem_referencia_solta (o : VendasOracle) (cads : List Registro)
    (m : ℕ) (ps : List Pedido) (h : gerar_dados_vendas o cads m = .ok ps) :
    ∀ p ∈ ps, p.cpf ∈ cads.map Registro.cpf := by
  intro p hp
  obtain ⟨i, -, hv⟩ := gerarVendasAux_mem (gerar_dados_vendas_ok h) hp
  exact (vendaIter_ok hv).1

/-- C1, witness: a concrete run over a one-row registry set. -/
theorem vendas_sem_referencia_solta_witness :
    ped1.cpf ∈ cads1.map Registro.cpf :=
  vendas_sem_referencia_solta ov0 cads1 1 _ rfl ped1 (List.Mem.head _)

/-- C2: whenever `gerar_dados_cadastrais` returns a record set, the `cpf`
values are pairwise distinct, for any requested count — given the contract of
`fake.unique.cpf()` that successive draws never repeat (injectivity of the
cpf oracle). -/
theorem cadastros_cpf_nodup (o : CadOracle) (n : ℕ) (rs : List Registro)
    (hinj : Function.Injective o.cpf)
    (h : gerar_dados_cadastrais o n = .ok rs) :
    (rs.map Registro.cpf).Nodup := by
  have hrs := gerarCadAux_ok h
  subst hrs
  rw [List.map_map]
  have hc : (Registro.cpf ∘ mkRegistro o) = o.cpf := rfl
  rw [hc]
  exact (List.nodup_range n).map hinj

/-- C2, witness: a concrete three-row run with an injective cpf oracle. -/
theorem cadastros_cpf_nodup_witness :
    (((gerar_dados_cadastrais oc0 3).toOption.getD []).map Registro.cpf).Nodup := by
  have hinj : Function.Injective oc0.cpf := by
    intro a b hab
    have h3 : List.replicate a 'c' = List.replicate b 'c' := congrArg String.data hab
    simpa using congrArg List.length h3
  exact cadastros_cpf_nodup oc0 3 _ hinj rfl

/-- C3: every generated order's delivery city and state equal the city and
state of the registry record whose cpf the order references, and its delivery
address is that record's street, number and neighborhood, comma-separated
(registry cpfs assumed pairwise distinct, which C2 establishes). -/
theorem vendas_endereco_denormalizado (o : VendasOracle) (cads : List Registro)
    (m : ℕ) (ps : List Pedido) (hnd : (cads.map Registro.cpf).Nodup)
    (h : gerar_dados_vendas o cads m = .ok ps) :
    ∀ p ∈ ps, ∀ r ∈ cads, r.cpf = p.cpf →
      p.cidade_entrega = r.cidade ∧ p.estado_entrega = r.estado ∧
      p.endereco_entrega = r.rua ++ ", " ++ r.numero ++ ", " ++ r.bairro := by
  intro p hp r hr hrc
  obtain ⟨i, -, hv⟩ := gerarVendasAux_mem (gerar_dados_vendas_ok h) hp
  obtain ⟨-, hm⟩ := vendaIter_ok hv
  obtain ⟨-, r0, hl, hc, he, hend, -⟩ := montarPedido_ok hm
  obtain ⟨hr0mem, hr0cpf⟩ := lookupCpf_some hl
  have hrr : r = r0 := List.inj_on_of_nodup_map hnd hr hr0mem (by rw [hrc, hr0cpf])
  subst hrr
  exact ⟨hc, he, hend⟩

/-- C3, witness: the concrete run's order is delivered at the referenced
registry record's address. -/
theorem vendas_endereco_denormalizado_witness :
    ped1.cidade_entrega = reg0.cidade ∧ ped1.estado_entrega = reg0.estado ∧
    ped1.endereco_entrega = reg0.rua ++ ", " ++ reg0.numero ++ ", " ++ reg0.bairro :=
  vendas_endereco_denormalizado ov0 cads1 1 _ (by decide) rfl ped1 (List.Mem.head _)
    reg0 (by decide) (by decide)

/-- C4: in every generated order the coupon is a word exactly when the
discount is positive, and `None` otherwise — a biconditional with no
exceptions. -/
theorem vendas_cupom_iff_desconto (o : VendasOracle) (cads : List Registro)
    (m : ℕ) (ps : List Pedido) (h : gerar_dados_vendas o cads m = .ok ps) :
    ∀ p ∈ ps, ((∃ w, p.cupom = some w) ↔ 0 < p.valor_desconto) ∧
      (¬ 0 < p.valor_desconto → p.cupom = none) := by
  intro p hp
  obtain ⟨i, -, hv⟩ := gerarVendasAux_mem (gerar_dados_vendas_ok h) hp
  obtain ⟨-, hm⟩ := vendaIter_ok hv
  obtain ⟨-, r, -, -, -, -, -, -, -, hcup⟩ := montarPedido_ok hm
  rw [hcup]
  by_cases hd : 0 < p.valor_desconto <;> simp [hd]

/-- C4, witness: the concrete run's order has a coupon exactly when its
discount is positive. -/
theorem vendas_cupom_iff_desconto_witness :
    ((∃ w, ped1.cupom = some w) ↔ 0 < ped1.valor_desconto) ∧
      (¬ 0 < ped1.valor_desconto → ped1.cupom = none) :=
  vendas_cupom_iff_desconto ov0 cads1 1 _ rfl ped1 (List.Mem.head _)

/-- C5: in every generated order the order value lies in [30, 5000], the
shipping value in [10, 150], and the discount is exactly 0 or lies in
[10, 20]; each is a multiple of 1/100 (rounded to two decimals) — given the
contract of `random.uniform` (`VendasOracle.Valido`). -/
theorem vendas_valores_intervalos (o : VendasOracle) (cads : List Registro)
    (m : ℕ) (ps : List Pedido) (hval : o.Valido)
    (h : gerar_dados_vendas o cads m = .ok ps) :
    ∀ p ∈ ps,
      (30 ≤ p.valor_pedido ∧ p.valor_pedido ≤ 5000 ∧
        ∃ a : ℤ, p.valor_pedido = (a : ℚ) / 100) ∧
      (10 ≤ p.valor_frete ∧ p.valor_frete ≤ 150 ∧
        ∃ b : ℤ, p.valor_frete = (b : ℚ) / 100) ∧
      (p.valor_desconto = 0 ∨ (10 ≤ p.valor_desconto ∧ p.valor_desconto ≤ 20 ∧
        ∃ d : ℤ, p.valor_desconto = (d : ℚ) / 100)) := by
  intro p hp
  obtain ⟨i, -, hv⟩ := gerarVendasAux_mem (gerar_dados_vendas_ok h) hp
  obtain ⟨-, hm⟩ := vendaIter_ok hv
  obtain ⟨-, r, -, -, -, -, hvp, hvf, hvd, -⟩ := montarPedido_ok hm
  obtain ⟨⟨h30, h5000⟩, ⟨h10, h150⟩, hd10, hd20⟩ := hval i
  refine ⟨⟨?_, ?_, ?_⟩, ⟨?_, ?_, ?_⟩, ?_⟩
  · rw [hvp]; exact_mod_cast le_round2 30 _ (by exact_mod_cast h30)
  · rw [hvp]; exact_mod_cast round2_le 5000 _ (by exact_mod_cast h5000)
  · exact ⟨round (o.valorPedidoBruto i * 100), hvp⟩
  · rw [hvf]; exact_mod_cast le_round2 10 _ (by exact_mod_cast h10)
  · rw [hvf]; exact_mod_cast round2_le 150 _ (by exact_mod_cast h150)
  · exact ⟨round (o.valorFreteBruto i * 100), hvf⟩
  · rw [hvd]
    by_cases hz : o.descontoZero i
    · left; rw [if_pos hz]
    · right
      rw [if_neg hz]
      refine ⟨?_, ?_, round (o.valorDescontoBruto i * 100), rfl⟩
      · exact_mod_cast le_round2 10 _ (by exact_mod_cast hd10)
      · exact_mod_cast round2_le 20 _ (by exact_mod_cast hd20)

/-- C5, witness: the concrete order oracle draws inside the documented
intervals, and the produced order's monetary values satisfy the bounds. -/
theorem vendas_valores_intervalos_witness :
    (30 ≤ ped1.valor_pedido ∧ ped1.valor_pedido ≤ 5000 ∧
      ∃ a : ℤ, ped1.valor_pedido = (a : ℚ) / 100) ∧
    (10 ≤ ped1.valor_frete ∧ ped1.valor_frete ≤ 150 ∧
      ∃ b : ℤ, ped1.valor_frete = (b : ℚ) / 100) ∧
    (ped1.valor_desconto = 0 ∨ (10 ≤ ped1.valor_desconto ∧ ped1.valor_desconto ≤ 20 ∧
      ∃ d : ℤ, ped1.valor_desconto = (d : ℚ) / 100)) :=
  vendas_valores_intervalos ov0 cads1 1 _
    (fun _ => by norm_num [ov0]) rfl ped1 (List.Mem.head _)

/-- C6: for every count the registry generator returns exactly that many
records, and for every count and non-empty registry set the order generator
returns exactly that many order records — given that no library call raises
an exception. -/
theorem geradores_contagem_exata (oc : CadOracle) (ov : VendasOracle)
    (n m : ℕ) (cads : List Registro)
    (hoc : ∀ i, oc.excecao i = none) (hov : ∀ i, ov.falha i = none)
    (hne : cads ≠ []) :
    (gerar_dados_cadastrais oc n).map List.length = .ok n ∧
    (gerar_dados_vendas ov cads m).map List.length = .ok m := by
  constructor
  · rw [gerar_dados_cadastrais, gerarCadAux_isOk (fun i _ => hoc i)]
    simp [Except.map]
  · obtain ⟨ps, hps, hlen⟩ := gerarVendasAux_length hne (fun i _ => hov i)
    rw [gerar_dados_vendas, if_neg hne, hps]
    simp [Except.map, hlen]

/-- C6, witness: concrete oracles produce exactly 2 registry records and
exactly 2 orders over a one-row registry set. -/
theorem geradores_contagem_exata_witness :
    (gerar_dados_cadastrais oc0 2).map List.length = .ok 2 ∧
    (gerar_dados_vendas ov0 cads1 2).map List.length = .ok 2 :=
  geradores_contagem_exata oc0 ov0 2 2 cads1 (fun _ => rfl) (fun _ => rfl)
    (by decide)

/-- C7: with an empty registry set, order generation fails instead of
returning records (in particular for every positive order count): the
registry frame built from zero records is column-less, so the pre-loop
`set_index('cpf')` raises `KeyError("None of ['cpf'] are in the columns")`,
caught by the dedicated `KeyError` clause and re-raised with the mapping
wrap — no order record is ever produced. -/
theorem vendas_cadastro_vazio_falha (o : VendasOracle) (m : ℕ) :
    gerar_dados_vendas o [] m = .error .semColuna ∧
    VendasError.semColuna.mensagem =
      "Erro ao mapear CPF para endereço: " ++
        "\"None of ['cpf'] are in the columns\"" := by
  exact ⟨by rw [gerar_dados_vendas, if_pos rfl], rfl⟩

/-- C8: if a chosen cpf is absent from the precomputed lookup, the iteration
body fails with the referential-lookup error naming the unresolved key,
whose wrapping message is distinct from every generic generation failure
message. -/
theorem vendas_erro_mapeamento_distinto (o : VendasOracle)
    (cads : List Registro) (i : ℕ) (c : String)
    (h : lookupCpf cads c = none) :
    montarPedido o cads i c = .error (.mapeamento c) ∧
    (VendasError.mapeamento c).mensagem =
      "Erro ao mapear CPF para endereço: " ++ ("'" ++ c ++ "'") ∧
    ∀ msg, (VendasError.mapeamento c).mensagem ≠
      (VendasError.geracao msg).mensagem := by
  refine ⟨by simp [montarPedido, h], rfl, ?_⟩
  intro msg heq
  simp only [VendasError.mensagem] at heq
  have hd := congrArg String.data heq
  simp only [string_data_append] at hd
  have h8 := congrArg (fun l => l[8]?) hd
  simp only at h8
  rw [List.getElem?_append_left (by decide), List.getElem?_append_left (by decide)] at h8
  exact absurd h8 (by decide)

/-- C8, witness: an unknown cpf against an empty registry set. -/
theorem vendas_erro_mapeamento_distinto_witness :
    montarPedido ov0 [] 0 "000.000.000-00" =
      .error (.mapeamento "000.000.000-00") ∧
    (VendasError.mapeamento "000.000.000-00").mensagem =
      "Erro ao mapear CPF para endereço: " ++ ("'" ++ "000.000.000-00" ++ "'") ∧
    ∀ msg, (VendasError.mapeamento "000.000.000-00").mensagem ≠
      (VendasError.geracao msg).mensagem :=
  vendas_erro_mapeamento_distinto ov0 [] 0 "000.000.000-00" rfl

/-- C9: the order generator does not modify its input registry set — with
the dataframe's state threaded through every pandas operation the source
performs on it, the registry set after the call (whether it succeeds or
fails) is the input, and the result is that of the pure generator. -/
theorem vendas_nao_modifica_cadastros (o : VendasOracle)
    (cads : List Registro) (m : ℕ) :
    (gerar_dados_vendas_estado o cads m).2 = cads ∧
    (gerar_dados_vendas_estado o cads m).1 = gerar_dados_vendas o cads m := by
  by_cases hc : cads = [] <;>
    simp [gerar_dados_vendas_estado, gerar_dados_vendas, dfParaDict, hc]

/-- C10: `processar_dados` writes the output files only after both
generation stages completed: when either stage fails the only filesystem
effects are the two directory creations (no parquet file is written, not
even for a stage that succeeded), and on success the two writes come after
the directory creations. -/
theorem processar_sem_escrita_em_falha (oc : CadOracle) (ov : VendasOracle)
    (n m : ℕ) (base : String) :
    ((processar_dados oc ov n m base).2.isSome = true →
      (processar_dados oc ov n m base).1 =
        [FSOp.mkdir (osPathJoin base "cadastros/"),
         FSOp.mkdir (osPathJoin base "pedidos/")]) ∧
    ((processar_dados oc ov n m base).2 = none →
      (processar_dados oc ov n m base).1 =
        [FSOp.mkdir (osPathJoin base "cadastros/"),
         FSOp.mkdir (osPathJoin base "pedidos/"),
         FSOp.escreverParquet (osPathJoin (osPathJoin base "cadastros/") "cadastros.parquet"),
         FSOp.escreverParquet (osPathJoin (osPathJoin base "pedidos/") "pedidos.parquet")]) := by
  unfold processar_dados
  cases hc : gerar_dados_cadastrais oc n with
  | error e => simp [hc]
  | ok cads =>
    cases hv : gerar_dados_vendas ov cads m with
    | error e => simp [hc, hv]
    | ok ps => simp [hc, hv]

/-- C10, witness: registry count 0 with order count 1 makes the order stage
fail, and only the two directories are created. -/
theorem processar_sem_escrita_em_falha_witness :
    (processar_dados oc0 ov0 0 1 "./data/").1 =
      [FSOp.mkdir (osPathJoin "./data/" "cadastros/"),
       FSOp.mkdir (osPathJoin "./data/" "pedidos/")] :=
  (processar_sem_escrita_em_falha oc0 ov0 0 1 "./data/").1 (by decide)
